import Mathlib

/-!
Verification of the Piper TTS HTTP wrapper (`src/app.py`).

The repository is a single Flask application exposing `GET /api/tts`.
This file gives a shallow embedding of the request handler
`synthesize_audio`, the model cache/loader `get_tts_instance`, the
synthesis adapter (capability probing over the wrapped model handle),
and the WAV container assembly done through the Python `wave` module,
and proves the testable properties of the spec against it.

Modelling conventions:
- The filesystem and the external Piper library appear as an explicit
  environment `Env`: `pathExists` is the `Path.exists` oracle and
  `load` is `PiperVoice.load`, which either yields a model handle or
  raises (modelled as `Except String`).
- A model handle (`PiperModel`) carries its declared sample rate
  (`tts_instance.config.sample_rate`) and the optionally present
  synthesis methods; `none` for a method means `hasattr` is false for
  it.  A present method either returns bytes or raises.  Modelling the
  methods as Lean functions bakes in the determinism of the wrapped
  model, which is exactly the hypothesis the spec states.
- The process-wide dict `tts_instances` is an association list
  threaded through the functions as explicit state; `dict` keys are
  unique, which for the association list is the `Nodup` invariant
  proved below.
- Bytes are `Nat` values (each < 256 in real runs); byte strings are
  `List Nat`.
-/

namespace PiperApp

/-- A loaded Piper model handle, as `get_tts_instance` sees it:
the declared sample rate plus the optionally present synthesis
methods.  `synthesizeStream` returns an iterator of byte chunks; a
method that is `none` is an absent Python method (`hasattr` false),
and calling an absent method raises `AttributeError`. -/
structure PiperModel where
  sampleRate : Nat
  synthesizeStream : Option (String → Except String (List (List Nat)))
  synthesize : Option (String → Except String (List Nat))

/-- The external world: the filesystem `exists` oracle and
`PiperVoice.load`, which returns a handle or raises. -/
structure Env where
  pathExists : String → Bool
  load : String → Except String PiperModel

/-- An HTTP request to `/api/tts`: `request.args.get` yields `none`
for an absent query parameter. -/
structure Request where
  text : Option String
  voice : Option String

/-- The handler response: either a jsonify body whose one key is
named error — carried here as `errorMsg` — together with a status, or
a send_file of bytes with mimetype, as-attachment flag and download
name, which carries status 200. -/
inductive Response where
  | json (status : Nat) (errorMsg : String)
  | file (bytes : List Nat) (mimetype : String) (asAttachment : Bool)
      (downloadName : String)
deriving DecidableEq, Repr

/-- HTTP status of a response; `send_file` responses are 200. -/
def Response.status : Response → Nat
  | .json s _ => s
  | .file _ _ _ _ => 200

/-- The in-memory cache `tts_instances` = dict from voice name to
loaded handle, as an association list. -/
abbrev Cache := List (String × PiperModel)

/-- Default voice from `request.args.get` at line 69 of app.py. -/
def defaultVoice : String := "en_GB-alba-medium"

/-- The candidate model paths probed at lines 33-37 of app.py, in
source order: voice.onnx under VOICES_DIR (the voices subdirectory of
the application directory), then voice.onnx in the application
directory itself, then the relative path voice.onnx resolved in the
working directory.  `appDir` stands for the application directory,
the parent of app.py. -/
def possiblePaths (appDir voice : String) : List String :=
  [appDir ++ "/voices/" ++ voice ++ ".onnx",
   appDir ++ "/" ++ voice ++ ".onnx",
   voice ++ ".onnx"]

/-- The probe loop at lines 39-44 of app.py: first candidate for
which `path.exists()` holds, else `None`. -/
def findModelPath (env : Env) (appDir voice : String) : Option String :=
  (possiblePaths appDir voice).find? env.pathExists

/-- Function `get_tts_instance` (lines 25-54 of app.py): cache hit returns the
stored handle; on miss, probe the candidate paths, return `None` when
none exists; otherwise call `PiperVoice.load`, returning `None` when
it raises (the `except` at line 51) and caching the handle on
success.  Returns the handle together with the updated cache. -/
def get_tts_instance (env : Env) (appDir : String) (cache : Cache)
    (voice : String) : Option PiperModel × Cache :=
  match cache.lookup voice with
  | some inst => (some inst, cache)
  | none =>
    match findModelPath env appDir voice with
    | none => (none, cache)
    | some p =>
      match env.load p with
      | .error _ => (none, cache)
      | .ok m => (some m, (voice, m) :: cache)

/-- The synthesis adapter inside the `try` block (lines 80-101 of
app.py): if the handle has `synthesize_stream`, accumulate its
chunks; else if it has `synthesize`, take its result; else the code
calls the absent `synthesize` attribute, which raises
`AttributeError` (caught by the handler).  Any raise inside the
branches is an `error` value. -/
def runSynthesis (m : PiperModel) (text : String) : Except String (List Nat) :=
  match m.synthesizeStream with
  | some f => (f text).map List.flatten
  | none =>
    match m.synthesize with
    | some f => f text
    | none => Except.error "PiperVoice object has no field synthesize"

/-- One little-endian 16-bit field as written by `struct.pack` inside
the `wave` module. -/
def u16le (n : Nat) : List Nat :=
  [n % 256, n / 256 % 256]

/-- One little-endian 32-bit field as written by `struct.pack` inside
the `wave` module. -/
def u32le (n : Nat) : List Nat :=
  [n % 256, n / 256 % 256, n / 65536 % 256, n / 16777216 % 256]

/-- ASCII bytes of a marker string. -/
def asciiBytes (s : String) : List Nat :=
  s.data.map Char.toNat

/-- The byte stream the Python `wave` module produces for
`setnchannels(1)`, `setsampwidth(2)`, `setframerate(sampleRate)` and
`writeframes(pcm)` (lines 104-109 of app.py): RIFF header, `fmt `
chunk with PCM format 1, 1 channel, the given rate, byte rate
`rate * 1 * 2`, block align 2, 16 bits per sample, then the `data`
chunk holding the PCM bytes. -/
def wavBytes (sampleRate : Nat) (pcm : List Nat) : List Nat :=
  asciiBytes "RIFF" ++ u32le (36 + pcm.length) ++ asciiBytes "WAVE" ++
  asciiBytes "fmt " ++ u32le 16 ++ u16le 1 ++ u16le 1 ++
  u32le sampleRate ++ u32le (sampleRate * 2) ++ u16le 2 ++ u16le 16 ++
  asciiBytes "data" ++ u32le pcm.length ++ pcm

/-- WAV assembly through the `wave` module.  `struct.pack` raises
`struct.error` when a 32-bit header field is out of range (byte rate
`sampleRate * 2`, or the RIFF chunk size `36 + len(pcm)`); such a
raise is caught by the handler like any other exception.  Otherwise
the complete container of `wavBytes` is produced. -/
def wavEncode (sampleRate : Nat) (pcm : List Nat) : Except String (List Nat) :=
  if 2 ^ 32 ≤ sampleRate * 2 ∨ 2 ^ 32 ≤ 36 + pcm.length then
    Except.error "struct.error: argument out of range"
  else
    Except.ok (wavBytes sampleRate pcm)

/-- A single quote character, for the error texts of app.py. -/
def sq : String := "\x27"

/-- The load-failure message of line 76 of app.py: the fixed prefix,
the voice in single quotes, and a trailing period. -/
def loadErrorMsg (voice : String) : String :=
  "Could not load voice model for " ++ sq ++ voice ++ sq ++ "."

/-- The synthesis-failure message of line 122 of app.py: the fixed
prefix followed by the text of the caught exception. -/
def synthErrorMsg (e : String) : String :=
  "Failed to synthesize audio: " ++ e

/-- The pipeline after validation (lines 74-122 of app.py): load or
fetch the handle (500 on absence), run the adapter and the WAV
assembly inside `try` (any raise becomes a 500 with the exception
text), and on success return the bytes via `send_file` with mimetype
`audio/wav`, as attachment, download name `output.wav`. -/
def handleTTS (env : Env) (appDir : String) (cache : Cache)
    (voice text : String) : Response × Cache :=
  match get_tts_instance env appDir cache voice with
  | (none, cache') => (Response.json 500 (loadErrorMsg voice), cache')
  | (some m, cache') =>
    match runSynthesis m text with
    | .error e => (Response.json 500 (synthErrorMsg e), cache')
    | .ok pcm =>
      match wavEncode m.sampleRate pcm with
      | .error e => (Response.json 500 (synthErrorMsg e), cache')
      | .ok bytes =>
        (Response.file bytes "audio/wav" true "output.wav", cache')

/-- The handler `synthesize_audio` (lines 63-122 of app.py): read
`text` and `voice` (with its default), reject absent or empty text
(`if not text`) with 400, then run the pipeline. -/
def synthesize_audio (env : Env) (appDir : String) (cache : Cache)
    (req : Request) : Response × Cache :=
  match req.text with
  | none => (Response.json 400 "Text to synthesize is required.", cache)
  | some t =>
    if t = "" then
      (Response.json 400 "Text to synthesize is required.", cache)
    else
      handleTTS env appDir cache (req.voice.getD defaultVoice) t

/-! ### Helper lemmas about the cache and the loader -/

/-- A `lookup` that misses means the key is not among the cache keys. -/
lemma lookup_none_not_mem (voice : String) (cache : Cache)
    (h : cache.lookup voice = none) : voice ∉ cache.map Prod.fst := by
  induction cache with
  | nil => simp
  | cons kv rest ih =>
    obtain ⟨k, v⟩ := kv
    rw [List.lookup_cons] at h
    by_cases hk : voice == k
    · rw [hk] at h
      exact absurd h (by simp)
    · rw [Bool.not_eq_true] at hk
      rw [hk] at h
      simp only [List.map_cons, List.mem_cons]
      rintro (rfl | hmem)
      · simp at hk
      · exact ih h hmem

/-- Cache hit: `get_tts_instance` returns the stored handle and does
not touch the cache. -/
lemma get_tts_instance_hit (env : Env) (appDir : String) (cache : Cache)
    (voice : String) (m : PiperModel) (h : cache.lookup voice = some m) :
    get_tts_instance env appDir cache voice = (some m, cache) := by
  simp [get_tts_instance, h]

/-- After any call of `get_tts_instance` that yields a handle, the
same voice is a cache hit for every later call, under any
environment, returning the same handle and leaving the cache
unchanged. -/
lemma get_tts_instance_stable (env env' : Env) (appDir : String)
    (cache : Cache) (voice : String) (m : PiperModel) (cache' : Cache)
    (h : get_tts_instance env appDir cache voice = (some m, cache')) :
    get_tts_instance env' appDir cache' voice = (some m, cache') := by
  unfold get_tts_instance at h
  split at h
  next inst hl =>
    obtain ⟨h1, h2⟩ := Prod.mk.injEq .. ▸ h
    obtain rfl := Option.some.inj h1
    subst h2
    exact get_tts_instance_hit env' appDir cache voice inst hl
  next hl =>
    split at h
    next hf => simp at h
    next p hf =>
      split at h
      next e he => simp at h
      next m0 he =>
        obtain ⟨h1, h2⟩ := Prod.mk.injEq .. ▸ h
        obtain rfl := Option.some.inj h1
        subst h2
        exact get_tts_instance_hit env' appDir _ voice m0 (by simp [List.lookup])

/-- When `get_tts_instance` fails it leaves the cache exactly as it
was. -/
lemma get_tts_instance_none_frame (env : Env) (appDir : String)
    (cache : Cache) (voice : String)
    (h : (get_tts_instance env appDir cache voice).1 = none) :
    get_tts_instance env appDir cache voice = (none, cache) := by
  unfold get_tts_instance at h ⊢
  split at h
  next inst hl => simp at h
  next hl =>
    split at h
    next hf => simp [hl, hf]
    next p hf =>
      split at h
      next e he => simp [hl, hf, he]
      next m0 he => simp at h

/-- Fetching through `get_tts_instance` keeps the cache keys
duplicate-free. -/
lemma get_tts_instance_keys_nodup (env : Env) (appDir : String)
    (cache : Cache) (voice : String) (h : (cache.map Prod.fst).Nodup) :
    (((get_tts_instance env appDir cache voice).2).map Prod.fst).Nodup := by
  unfold get_tts_instance
  split
  next inst hl => exact h
  next hl =>
    split
    next hf => exact h
    next p hf =>
      split
      next e he => exact h
      next m0 he =>
        simp only [List.map_cons, List.nodup_cons]
        exact ⟨lookup_none_not_mem voice cache hl, h⟩

/-- Successful WAV assembly yields exactly the complete container
bytes. -/
lemma wavEncode_ok_eq (sampleRate : Nat) (pcm bytes : List Nat)
    (h : wavEncode sampleRate pcm = Except.ok bytes) :
    bytes = wavBytes sampleRate pcm := by
  unfold wavEncode at h
  split at h
  · exact absurd h (by simp)
  · exact (Except.ok.inj h).symm

/-- Every response of the pipeline after validation is a `json`
response or the complete WAV container of some rate and PCM buffer,
sent as `output.wav`. -/
lemma handleTTS_shape (env : Env) (appDir : String) (cache : Cache)
    (voice text : String) :
    (∃ s e, (handleTTS env appDir cache voice text).1 = Response.json s e) ∨
    (∃ rate pcm, wavEncode rate pcm = Except.ok (wavBytes rate pcm) ∧
      (handleTTS env appDir cache voice text).1 =
        Response.file (wavBytes rate pcm) "audio/wav" true "output.wav") := by
  unfold handleTTS
  split
  next cache' heq => exact Or.inl ⟨500, _, rfl⟩
  next m cache' heq =>
    split
    next e he => exact Or.inl ⟨500, _, rfl⟩
    next pcm hs =>
      split
      next e he => exact Or.inl ⟨500, _, rfl⟩
      next bytes hw =>
        obtain rfl := wavEncode_ok_eq m.sampleRate pcm bytes hw
        exact Or.inr ⟨m.sampleRate, pcm, hw, rfl⟩

/-- The pipeline after validation never answers 400: it answers 500
on failure and 200 on success. -/
lemma handleTTS_status (env : Env) (appDir : String) (cache : Cache)
    (voice text : String) :
    (handleTTS env appDir cache voice text).1.status = 500 ∨
    (handleTTS env appDir cache voice text).1.status = 200 := by
  unfold handleTTS
  split
  next cache' heq => exact Or.inl rfl
  next m cache' heq =>
    split
    next e he => exact Or.inl rfl
    next pcm hs =>
      split
      next e he => exact Or.inl rfl
      next bytes hw => exact Or.inr rfl

/-- Validation passes: the handler defers to the pipeline. -/
lemma synthesize_audio_some (env : Env) (appDir : String) (cache : Cache)
    (req : Request) (t : String) (ht : req.text = some t) (hne : t ≠ "") :
    synthesize_audio env appDir cache req =
      handleTTS env appDir cache (req.voice.getD defaultVoice) t := by
  unfold synthesize_audio
  rw [ht]
  show (if t = "" then (Response.json 400 "Text to synthesize is required.", cache)
    else handleTTS env appDir cache (req.voice.getD defaultVoice) t) = _
  rw [if_neg hne]

/-- Pipeline reduction on a failed handle fetch. -/
lemma handleTTS_load_failure (env : Env) (appDir : String) (cache : Cache)
    (voice text : String) (cache' : Cache)
    (hg : get_tts_instance env appDir cache voice = (none, cache')) :
    handleTTS env appDir cache voice text =
      (Response.json 500 (loadErrorMsg voice), cache') := by
  unfold handleTTS
  split
  next c2 h2 => rw [hg] at h2; obtain ⟨-, rfl⟩ := Prod.mk.injEq .. ▸ h2; rfl
  next m2 c2 h2 => rw [hg] at h2; exact absurd (Prod.mk.injEq .. ▸ h2).1 (by simp)

/-- Pipeline reduction on a raise inside synthesis. -/
lemma handleTTS_synth_failure (env : Env) (appDir : String) (cache : Cache)
    (voice text : String) (m : PiperModel) (cache' : Cache) (e : String)
    (hg : get_tts_instance env appDir cache voice = (some m, cache'))
    (hs : runSynthesis m text = Except.error e) :
    handleTTS env appDir cache voice text =
      (Response.json 500 (synthErrorMsg e), cache') := by
  unfold handleTTS
  split
  next c2 h2 => rw [hg] at h2; exact absurd (Prod.mk.injEq .. ▸ h2).1 (by simp)
  next m2 c2 h2 =>
    rw [hg] at h2
    obtain ⟨h3, rfl⟩ := Prod.mk.injEq .. ▸ h2
    obtain rfl := Option.some.inj h3
    split
    next e2 h4 => rw [hs] at h4; obtain rfl := Except.error.inj h4; rfl
    next p2 h4 => rw [hs] at h4; exact absurd h4 (by simp)

/-- Pipeline reduction on a raise inside WAV assembly. -/
lemma handleTTS_wav_failure (env : Env) (appDir : String) (cache : Cache)
    (voice text : String) (m : PiperModel) (cache' : Cache)
    (pcm : List Nat) (e : String)
    (hg : get_tts_instance env appDir cache voice = (some m, cache'))
    (hs : runSynthesis m text = Except.ok pcm)
    (hw : wavEncode m.sampleRate pcm = Except.error e) :
    handleTTS env appDir cache voice text =
      (Response.json 500 (synthErrorMsg e), cache') := by
  unfold handleTTS
  split
  next c2 h2 => rw [hg] at h2; exact absurd (Prod.mk.injEq .. ▸ h2).1 (by simp)
  next m2 c2 h2 =>
    rw [hg] at h2
    obtain ⟨h3, rfl⟩ := Prod.mk.injEq .. ▸ h2
    obtain rfl := Option.some.inj h3
    split
    next e2 h4 => rw [hs] at h4; exact absurd h4 (by simp)
    next p2 h4 =>
      rw [hs] at h4
      obtain rfl := Except.ok.inj h4
      split
      next e2 h5 => rw [hw] at h5; obtain rfl := Except.error.inj h5; rfl
      next b2 h5 => rw [hw] at h5; exact absurd h5 (by simp)

/-- Pipeline reduction on full success. -/
lemma handleTTS_ok (env : Env) (appDir : String) (cache : Cache)
    (voice text : String) (m : PiperModel) (cache' : Cache)
    (pcm bytes : List Nat)
    (hg : get_tts_instance env appDir cache voice = (some m, cache'))
    (hs : runSynthesis m text = Except.ok pcm)
    (hw : wavEncode m.sampleRate pcm = Except.ok bytes) :
    handleTTS env appDir cache voice text =
      (Response.file bytes "audio/wav" true "output.wav", cache') := by
  unfold handleTTS
  split
  next c2 h2 => rw [hg] at h2; exact absurd (Prod.mk.injEq .. ▸ h2).1 (by simp)
  next m2 c2 h2 =>
    rw [hg] at h2
    obtain ⟨h3, rfl⟩ := Prod.mk.injEq .. ▸ h2
    obtain rfl := Option.some.inj h3
    split
    next e2 h4 => rw [hs] at h4; exact absurd h4 (by simp)
    next p2 h4 =>
      rw [hs] at h4
      obtain rfl := Except.ok.inj h4
      split
      next e2 h5 => rw [hw] at h5; exact absurd h5 (by simp)
      next b2 h5 => rw [hw] at h5; obtain rfl := Except.ok.inj h5; rfl

/-! ### The WAV container header fields -/

lemma wavBytes_riff (r : Nat) (pcm : List Nat) :
    (wavBytes r pcm).take 4 = asciiBytes "RIFF" := rfl

lemma wavBytes_wave (r : Nat) (pcm : List Nat) :
    ((wavBytes r pcm).drop 8).take 4 = asciiBytes "WAVE" := rfl

lemma wavBytes_fmt (r : Nat) (pcm : List Nat) :
    ((wavBytes r pcm).drop 12).take 4 = asciiBytes "fmt " := rfl

lemma wavBytes_channels (r : Nat) (pcm : List Nat) :
    ((wavBytes r pcm).drop 22).take 2 = u16le 1 := rfl

lemma wavBytes_rate (r : Nat) (pcm : List Nat) :
    ((wavBytes r pcm).drop 24).take 4 = u32le r := rfl

lemma wavBytes_bits (r : Nat) (pcm : List Nat) :
    ((wavBytes r pcm).drop 34).take 2 = u16le 16 := rfl

/-- Validation failure: absent `text` parameter. -/
lemma synthesize_audio_no_text (env : Env) (appDir : String) (cache : Cache)
    (req : Request) (h : req.text = none) :
    synthesize_audio env appDir cache req =
      (Response.json 400 "Text to synthesize is required.", cache) := by
  unfold synthesize_audio
  rw [h]

/-- Validation failure: empty `text` parameter. -/
lemma synthesize_audio_empty_text (env : Env) (appDir : String) (cache : Cache)
    (req : Request) (h : req.text = some "") :
    synthesize_audio env appDir cache req =
      (Response.json 400 "Text to synthesize is required.", cache) := by
  unfold synthesize_audio
  rw [h]
  show (if "" = "" then (Response.json 400 "Text to synthesize is required.", cache)
    else handleTTS env appDir cache (req.voice.getD defaultVoice) "") = _
  rw [if_pos rfl]

/-- Loader reduction: cache miss and no candidate path exists. -/
lemma get_tts_instance_miss_not_found (env : Env) (appDir : String)
    (cache : Cache) (voice : String)
    (hmiss : cache.lookup voice = none)
    (hfind : findModelPath env appDir voice = none) :
    get_tts_instance env appDir cache voice = (none, cache) := by
  unfold get_tts_instance
  split
  next inst hl => rw [hmiss] at hl; exact absurd hl (by simp)
  next hl =>
    split
    next hf => rfl
    next p hf => rw [hfind] at hf; exact absurd hf (by simp)

/-- Loader reduction: cache miss, a path is found, loading raises. -/
lemma get_tts_instance_load_raise (env : Env) (appDir : String)
    (cache : Cache) (voice p e : String)
    (hmiss : cache.lookup voice = none)
    (hfind : findModelPath env appDir voice = some p)
    (hload : env.load p = Except.error e) :
    get_tts_instance env appDir cache voice = (none, cache) := by
  unfold get_tts_instance
  split
  next inst hl => rw [hmiss] at hl; exact absurd hl (by simp)
  next hl =>
    split
    next hf => rfl
    next p2 hf =>
      rw [hfind] at hf
      obtain rfl := Option.some.inj hf
      split
      next e2 h2 => rfl
      next m2 h2 => rw [hload] at h2; exact absurd h2 (by simp)

/-- Loader reduction: cache miss, a path is found, loading succeeds;
the handle is stored under the voice key. -/
lemma get_tts_instance_load_ok (env : Env) (appDir : String)
    (cache : Cache) (voice p : String) (m : PiperModel)
    (hmiss : cache.lookup voice = none)
    (hfind : findModelPath env appDir voice = some p)
    (hload : env.load p = Except.ok m) :
    get_tts_instance env appDir cache voice = (some m, (voice, m) :: cache) := by
  unfold get_tts_instance
  split
  next inst hl => rw [hmiss] at hl; exact absurd hl (by simp)
  next hl =>
    split
    next hf => rw [hfind] at hf; exact absurd hf (by simp)
    next p2 hf =>
      rw [hfind] at hf
      obtain rfl := Option.some.inj hf
      split
      next e2 h2 => rw [hload] at h2; exact absurd h2 (by simp)
      next m2 h2 => rw [hload] at h2; obtain rfl := Except.ok.inj h2; rfl

/-! ### Concrete fixtures used by the witnesses -/

/-- A model handle whose streaming method yields two PCM chunks. -/
def demoModel : PiperModel :=
  { sampleRate := 22050
    synthesizeStream := some (fun _ => Except.ok [[1, 2], [3, 4]])
    synthesize := none }

/-- A filesystem holding one model under the voices directory, whose
load succeeds. -/
def demoEnv : Env :=
  { pathExists := fun p => p == "/app/voices/en_US-lessac-medium.onnx"
    load := fun _ => Except.ok demoModel }

/-- A model handle whose streaming method raises. -/
def raisingModel : PiperModel :=
  { sampleRate := 22050
    synthesizeStream := some (fun _ => Except.error "boom")
    synthesize := none }

/-- A filesystem holding one model whose synthesis raises. -/
def raisingEnv : Env :=
  { pathExists := fun p => p == "/app/voices/en_US-lessac-medium.onnx"
    load := fun _ => Except.ok raisingModel }

/-- A filesystem with no model files at all. -/
def bareEnv : Env :=
  { pathExists := fun _ => false
    load := fun _ => Except.error "file not found" }

/-- A filesystem where the model file exists but loading raises. -/
def corruptEnv : Env :=
  { pathExists := fun p => p == "/app/voices/en_US-lessac-medium.onnx"
    load := fun _ => Except.error "onnx parse failure" }

/-- A model whose declared rate overflows the 32-bit byte-rate header
field, so WAV assembly raises inside the `try` block. -/
def hugeRateModel : PiperModel :=
  { sampleRate := 2 ^ 31
    synthesizeStream := some (fun _ => Except.ok [[0]])
    synthesize := none }

/-- A filesystem whose only model is `hugeRateModel`. -/
def hugeRateEnv : Env :=
  { pathExists := fun _ => true
    load := fun _ => Except.ok hugeRateModel }

/-- A filesystem where only the second candidate (the application
directory itself) holds the model file. -/
def secondPathEnv : Env :=
  { pathExists := fun p => p == "/app/en_US-lessac-medium.onnx"
    load := fun _ => Except.ok demoModel }

/-! ### The claims -/

/-- C1: for every request with non-empty text, a voice whose model is
reachable (`get_tts_instance` yields a handle), and a successful run
of the synthesis and WAV-assembly stage, the handler returns status
200 whose body is a WAV byte stream beginning with the ASCII bytes
`RIFF` and holding the `WAVE` and `fmt ` markers, channel count 1,
16-bit sample width, and frame rate equal to the declared sample
rate of the loaded model, delivered as an attachment named `output.wav`
with MIME type `audio/wav`. -/
theorem C1_success_returns_complete_wav
    (env : Env) (appDir : String) (cache : Cache) (req : Request)
    (t : String) (m : PiperModel) (pcm bytes : List Nat)
    (ht : req.text = some t) (hne : t ≠ "")
    (hm : (get_tts_instance env appDir cache (req.voice.getD defaultVoice)).1 =
      some m)
    (hs : runSynthesis m t = Except.ok pcm)
    (hw : wavEncode m.sampleRate pcm = Except.ok bytes) :
    (synthesize_audio env appDir cache req).1 =
      Response.file bytes "audio/wav" true "output.wav" ∧
    (synthesize_audio env appDir cache req).1.status = 200 ∧
    bytes.take 4 = asciiBytes "RIFF" ∧
    (bytes.drop 8).take 4 = asciiBytes "WAVE" ∧
    (bytes.drop 12).take 4 = asciiBytes "fmt " ∧
    (bytes.drop 22).take 2 = u16le 1 ∧
    (bytes.drop 24).take 4 = u32le m.sampleRate ∧
    (bytes.drop 34).take 2 = u16le 16 := by
  cases hg : get_tts_instance env appDir cache (req.voice.getD defaultVoice) with
  | mk o cache' =>
    rw [hg] at hm
    obtain rfl : o = some m := hm
    obtain rfl := wavEncode_ok_eq m.sampleRate pcm bytes hw
    have hresp : (synthesize_audio env appDir cache req).1 =
        Response.file (wavBytes m.sampleRate pcm) "audio/wav" true "output.wav" := by
      rw [synthesize_audio_some env appDir cache req t ht hne,
        handleTTS_ok env appDir cache _ t m cache' pcm _ hg hs hw]
    exact ⟨hresp, by rw [hresp]; rfl, wavBytes_riff _ _, wavBytes_wave _ _,
      wavBytes_fmt _ _, wavBytes_channels _ _, wavBytes_rate _ _,
      wavBytes_bits _ _⟩

/-- Witness for C1: a concrete request against `demoEnv`. -/
theorem C1_witness :
    (synthesize_audio demoEnv "/app" []
        ⟨some "Hello world", some "en_US-lessac-medium"⟩).1 =
      Response.file (wavBytes 22050 [1, 2, 3, 4]) "audio/wav" true "output.wav" ∧
    (synthesize_audio demoEnv "/app" []
        ⟨some "Hello world", some "en_US-lessac-medium"⟩).1.status = 200 ∧
    (wavBytes 22050 [1, 2, 3, 4]).take 4 = asciiBytes "RIFF" ∧
    ((wavBytes 22050 [1, 2, 3, 4]).drop 8).take 4 = asciiBytes "WAVE" ∧
    ((wavBytes 22050 [1, 2, 3, 4]).drop 12).take 4 = asciiBytes "fmt " ∧
    ((wavBytes 22050 [1, 2, 3, 4]).drop 22).take 2 = u16le 1 ∧
    ((wavBytes 22050 [1, 2, 3, 4]).drop 24).take 4 = u32le demoModel.sampleRate ∧
    ((wavBytes 22050 [1, 2, 3, 4]).drop 34).take 2 = u16le 16 :=
  C1_success_returns_complete_wav demoEnv "/app" []
    ⟨some "Hello world", some "en_US-lessac-medium"⟩ "Hello world" demoModel
    [1, 2, 3, 4] (wavBytes 22050 [1, 2, 3, 4]) rfl (by decide) rfl rfl rfl

/-- C2: for every request whose text parameter is absent or empty,
the handler returns 400 with the JSON error body, for every voice
value, every environment and every cache, and leaves the cache
unchanged; the quantification over the environment expresses that no
model lookup or load happens for such a request. -/
theorem C2_missing_text_400 (env : Env) (appDir : String) (cache : Cache)
    (req : Request) (h : req.text = none ∨ req.text = some "") :
    synthesize_audio env appDir cache req =
      (Response.json 400 "Text to synthesize is required.", cache) := by
  rcases h with h | h
  · exact synthesize_audio_no_text env appDir cache req h
  · exact synthesize_audio_empty_text env appDir cache req h

/-- Witness for C2: a request with a voice but no text, against an
environment that does hold that voice. -/
theorem C2_witness :
    synthesize_audio demoEnv "/app" [] ⟨none, some "en_US-lessac-medium"⟩ =
      (Response.json 400 "Text to synthesize is required.", []) :=
  C2_missing_text_400 demoEnv "/app" [] ⟨none, some "en_US-lessac-medium"⟩
    (Or.inl rfl)

/-- C3: with non-empty text and a voice that is not cached and whose
`.onnx` file exists in none of the three candidate directories, the
loader returns absent without raising and the handler answers 500
with the JSON error body. -/
theorem C3_model_not_found_500 (env : Env) (appDir : String) (cache : Cache)
    (req : Request) (t : String)
    (ht : req.text = some t) (hne : t ≠ "")
    (hmiss : cache.lookup (req.voice.getD defaultVoice) = none)
    (habs : ∀ p ∈ possiblePaths appDir (req.voice.getD defaultVoice),
      env.pathExists p = false) :
    get_tts_instance env appDir cache (req.voice.getD defaultVoice) =
      (none, cache) ∧
    synthesize_audio env appDir cache req =
      (Response.json 500 (loadErrorMsg (req.voice.getD defaultVoice)), cache) := by
  have hfind : findModelPath env appDir (req.voice.getD defaultVoice) = none := by
    unfold findModelPath
    rw [List.find?_eq_none]
    intro p hp
    simp [habs p hp]
  have hget := get_tts_instance_miss_not_found env appDir cache
    (req.voice.getD defaultVoice) hmiss hfind
  refine ⟨hget, ?_⟩
  rw [synthesize_audio_some env appDir cache req t ht hne,
    handleTTS_load_failure env appDir cache _ t cache hget]

/-- Witness for C3: a request for a voice with no backing file
anywhere, against `bareEnv`. -/
theorem C3_witness :
    get_tts_instance bareEnv "/app" [] "en_GB-alba-medium" = (none, []) ∧
    synthesize_audio bareEnv "/app" [] ⟨some "hi", none⟩ =
      (Response.json 500 (loadErrorMsg "en_GB-alba-medium"), []) :=
  C3_model_not_found_500 bareEnv "/app" [] ⟨some "hi", none⟩ "hi" rfl
    (by decide) rfl (fun p _ => rfl)

/-- C4: a raise in the synthesis stage or in the WAV-assembly stage
is caught and answered with a 500 JSON error body carrying the
exception text (conjuncts two and three); and every response
whatsoever is either a JSON body or the complete WAV container of
some rate and PCM buffer — never a truncated audio stream (conjunct
one). -/
theorem C4_exceptions_caught_no_partial_response :
    (∀ (env : Env) (appDir : String) (cache : Cache) (req : Request),
      (∃ s e, (synthesize_audio env appDir cache req).1 = Response.json s e) ∨
      (∃ rate pcm, wavEncode rate pcm = Except.ok (wavBytes rate pcm) ∧
        (synthesize_audio env appDir cache req).1 =
          Response.file (wavBytes rate pcm) "audio/wav" true "output.wav")) ∧
    (∀ (env : Env) (appDir : String) (cache : Cache) (req : Request)
      (t : String) (m : PiperModel) (e : String),
      req.text = some t → t ≠ "" →
      (get_tts_instance env appDir cache (req.voice.getD defaultVoice)).1 =
        some m →
      runSynthesis m t = Except.error e →
      (synthesize_audio env appDir cache req).1 =
        Response.json 500 (synthErrorMsg e)) ∧
    (∀ (env : Env) (appDir : String) (cache : Cache) (req : Request)
      (t : String) (m : PiperModel) (pcm : List Nat) (e : String),
      req.text = some t → t ≠ "" →
      (get_tts_instance env appDir cache (req.voice.getD defaultVoice)).1 =
        some m →
      runSynthesis m t = Except.ok pcm →
      wavEncode m.sampleRate pcm = Except.error e →
      (synthesize_audio env appDir cache req).1 =
        Response.json 500 (synthErrorMsg e)) := by
  refine ⟨?_, ?_, ?_⟩
  · intro env appDir cache req
    by_cases hn : req.text = none
    · exact Or.inl ⟨400, _, by rw [synthesize_audio_no_text env appDir cache req hn]⟩
    · obtain ⟨t, ht⟩ := Option.ne_none_iff_exists'.mp hn
      by_cases he : t = ""
      · subst he
        exact Or.inl ⟨400, _, by
          rw [synthesize_audio_empty_text env appDir cache req ht]⟩
      · rw [synthesize_audio_some env appDir cache req t ht he]
        exact handleTTS_shape env appDir cache (req.voice.getD defaultVoice) t
  · intro env appDir cache req t m e ht hne hm hs
    cases hg : get_tts_instance env appDir cache (req.voice.getD defaultVoice) with
    | mk o cache' =>
      rw [hg] at hm
      obtain rfl : o = some m := hm
      rw [synthesize_audio_some env appDir cache req t ht hne,
        handleTTS_synth_failure env appDir cache _ t m cache' e hg hs]
  · intro env appDir cache req t m pcm e ht hne hm hs hw
    cases hg : get_tts_instance env appDir cache (req.voice.getD defaultVoice) with
    | mk o cache' =>
      rw [hg] at hm
      obtain rfl : o = some m := hm
      rw [synthesize_audio_some env appDir cache req t ht hne,
        handleTTS_wav_failure env appDir cache _ t m cache' pcm e hg hs hw]

/-- Witness for C4: the no-partial-response disjunction at a concrete
request, a synthesis raise answered 500, and a WAV-assembly raise
(overflowing byte-rate field) answered 500. -/
theorem C4_witness :
    ((∃ s e, (synthesize_audio raisingEnv "/app" []
        ⟨some "hi", some "en_US-lessac-medium"⟩).1 = Response.json s e) ∨
      (∃ rate pcm, wavEncode rate pcm = Except.ok (wavBytes rate pcm) ∧
        (synthesize_audio raisingEnv "/app" []
            ⟨some "hi", some "en_US-lessac-medium"⟩).1 =
          Response.file (wavBytes rate pcm) "audio/wav" true "output.wav")) ∧
    (synthesize_audio raisingEnv "/app" []
        ⟨some "hi", some "en_US-lessac-medium"⟩).1 =
      Response.json 500 (synthErrorMsg "boom") ∧
    (synthesize_audio hugeRateEnv "/app" [] ⟨some "hi", none⟩).1 =
      Response.json 500 (synthErrorMsg "struct.error: argument out of range") :=
  ⟨C4_exceptions_caught_no_partial_response.1 raisingEnv "/app" []
      ⟨some "hi", some "en_US-lessac-medium"⟩,
    C4_exceptions_caught_no_partial_response.2.1 raisingEnv "/app" []
      ⟨some "hi", some "en_US-lessac-medium"⟩ "hi" raisingModel "boom" rfl
      (by decide) rfl rfl,
    C4_exceptions_caught_no_partial_response.2.2 hugeRateEnv "/app" []
      ⟨some "hi", none⟩ "hi" hugeRateModel [0]
      "struct.error: argument out of range" rfl (by decide) rfl rfl
      (by rw [wavEncode, if_pos (Or.inl (by decide))])⟩

/-- C5: on a cache miss the loader probes the candidate `.onnx`
paths in exactly the fixed order voices-directory, application
directory, working directory; the first existing path wins (the
chosen path is determined by the existence oracle through that
priority chain) and it is the path handed to `PiperVoice.load`. -/
theorem C5_probe_order_first_existing_wins (env : Env) (appDir voice : String)
    (cache : Cache) (hmiss : cache.lookup voice = none) :
    possiblePaths appDir voice =
      [appDir ++ "/voices/" ++ voice ++ ".onnx",
       appDir ++ "/" ++ voice ++ ".onnx",
       voice ++ ".onnx"] ∧
    findModelPath env appDir voice =
      (if env.pathExists (appDir ++ "/voices/" ++ voice ++ ".onnx") then
        some (appDir ++ "/voices/" ++ voice ++ ".onnx")
      else if env.pathExists (appDir ++ "/" ++ voice ++ ".onnx") then
        some (appDir ++ "/" ++ voice ++ ".onnx")
      else if env.pathExists (voice ++ ".onnx") then
        some (voice ++ ".onnx")
      else none) ∧
    (∀ p, findModelPath env appDir voice = some p →
      env.pathExists p = true ∧
      ∀ m, env.load p = Except.ok m →
        get_tts_instance env appDir cache voice =
          (some m, (voice, m) :: cache)) := by
  refine ⟨rfl, ?_, ?_⟩
  · unfold findModelPath possiblePaths
    by_cases h1 : env.pathExists (appDir ++ "/voices/" ++ voice ++ ".onnx")
    · simp [List.find?, h1]
    · rw [Bool.not_eq_true] at h1
      by_cases h2 : env.pathExists (appDir ++ "/" ++ voice ++ ".onnx")
      · simp [List.find?, h1, h2]
      · rw [Bool.not_eq_true] at h2
        by_cases h3 : env.pathExists (voice ++ ".onnx")
        · simp [List.find?, h1, h2, h3]
        · rw [Bool.not_eq_true] at h3
          simp [List.find?, h1, h2, h3]
  · intro p hp
    refine ⟨List.find?_some hp, fun m hm => ?_⟩
    exact get_tts_instance_load_ok env appDir cache voice p m hmiss hp hm

/-- Witness for C5: an environment where only the second candidate
path exists; the loader picks it and loads from it. -/
theorem C5_witness :
    findModelPath secondPathEnv "/app" "en_US-lessac-medium" =
      (if secondPathEnv.pathExists "/app/voices/en_US-lessac-medium.onnx" then
        some "/app/voices/en_US-lessac-medium.onnx"
      else if secondPathEnv.pathExists "/app/en_US-lessac-medium.onnx" then
        some "/app/en_US-lessac-medium.onnx"
      else if secondPathEnv.pathExists "en_US-lessac-medium.onnx" then
        some "en_US-lessac-medium.onnx"
      else none) ∧
    get_tts_instance secondPathEnv "/app" [] "en_US-lessac-medium" =
      (some demoModel, [("en_US-lessac-medium", demoModel)]) := by
  have h := C5_probe_order_first_existing_wins secondPathEnv "/app"
    "en_US-lessac-medium" [] rfl
  refine ⟨h.2.1, ?_⟩
  exact (h.2.2 "/app/en_US-lessac-medium.onnx" (by rw [h.2.1]; rfl)).2
    demoModel rfl

/-- C6: the cache maps every voice to at most one handle (conjuncts
one and two: `get_tts_instance` preserves duplicate-freedom of the
keys, and duplicate-free keys give count at most one per voice); a
cached voice is a hit returning the stored handle with no cache
change, under any environment — hence with no filesystem probe or
load (conjunct three); and after any fetch that yields a handle,
every later sequential fetch of that voice returns the same handle
and leaves the cache unchanged (conjunct four). -/
theorem C6_at_most_one_handle_and_hit_after_load :
    (∀ (env : Env) (appDir : String) (cache : Cache) (voice : String),
      (cache.map Prod.fst).Nodup →
      (((get_tts_instance env appDir cache voice).2).map Prod.fst).Nodup) ∧
    (∀ cache : Cache, (cache.map Prod.fst).Nodup →
      ∀ voice : String, (cache.map Prod.fst).count voice ≤ 1) ∧
    (∀ (env' : Env) (appDir : String) (cache : Cache) (voice : String)
      (m : PiperModel), cache.lookup voice = some m →
      get_tts_instance env' appDir cache voice = (some m, cache)) ∧
    (∀ (env env' : Env) (appDir : String) (cache cache' : Cache)
      (voice : String) (m : PiperModel),
      get_tts_instance env appDir cache voice = (some m, cache') →
      get_tts_instance env' appDir cache' voice = (some m, cache')) := by
  refine ⟨?_, ?_, ?_, ?_⟩
  · intro env appDir cache voice h
    exact get_tts_instance_keys_nodup env appDir cache voice h
  · intro cache h voice
    exact List.nodup_iff_count_le_one.mp h voice
  · intro env' appDir cache voice m h
    exact get_tts_instance_hit env' appDir cache voice m h
  · intro env env' appDir cache cache' voice m h
    exact get_tts_instance_stable env env' appDir cache voice m cache' h

/-- Witness for C6: a first load against `demoEnv` fills the cache;
the follow-up fetch hits even against a filesystem with no files at
all, and the resulting cache keys are duplicate-free. -/
theorem C6_witness :
    get_tts_instance bareEnv "/app" [("en_US-lessac-medium", demoModel)]
        "en_US-lessac-medium" =
      (some demoModel, [("en_US-lessac-medium", demoModel)]) ∧
    (((get_tts_instance demoEnv "/app" [] "en_US-lessac-medium").2).map
        Prod.fst).Nodup :=
  ⟨C6_at_most_one_handle_and_hit_after_load.2.2.2 demoEnv bareEnv "/app" []
      [("en_US-lessac-medium", demoModel)] "en_US-lessac-medium" demoModel rfl,
    C6_at_most_one_handle_and_hit_after_load.1 demoEnv "/app" []
      "en_US-lessac-medium" (by simp)⟩

/-- C7: for a fixed request, running the handler a second time from
the cache state the first run left behind produces the identical
response — byte-identical WAV output on success — the wrapped model
being deterministic by virtue of being embedded as a function. -/
theorem C7_sequential_runs_byte_identical (env : Env) (appDir : String)
    (cache : Cache) (req : Request) :
    (synthesize_audio env appDir
        ((synthesize_audio env appDir cache req).2) req).1 =
      (synthesize_audio env appDir cache req).1 := by
  by_cases hn : req.text = none
  · have h := synthesize_audio_no_text env appDir cache req hn
    rw [h]
    show (synthesize_audio env appDir cache req).1 =
      Response.json 400 "Text to synthesize is required."
    rw [h]
  · obtain ⟨t, ht⟩ := Option.ne_none_iff_exists'.mp hn
    by_cases he : t = ""
    · subst he
      have h := synthesize_audio_empty_text env appDir cache req ht
      rw [h]
      show (synthesize_audio env appDir cache req).1 =
        Response.json 400 "Text to synthesize is required."
      rw [h]
    · have h1 := synthesize_audio_some env appDir cache req t ht he
      cases hg : get_tts_instance env appDir cache (req.voice.getD defaultVoice) with
      | mk o cache' =>
        cases o with
        | none =>
          have hfr := get_tts_instance_none_frame env appDir cache
            (req.voice.getD defaultVoice) (by rw [hg])
          have hh := handleTTS_load_failure env appDir cache
            (req.voice.getD defaultVoice) t cache hfr
          rw [h1, hh]
          show (synthesize_audio env appDir cache req).1 =
            Response.json 500 (loadErrorMsg (req.voice.getD defaultVoice))
          rw [h1, hh]
        | some m =>
          have hst := get_tts_instance_stable env env appDir cache
            (req.voice.getD defaultVoice) m cache' hg
          have h2 := synthesize_audio_some env appDir cache' req t ht he
          cases hs : runSynthesis m t with
          | error e =>
            have ha := handleTTS_synth_failure env appDir cache
              (req.voice.getD defaultVoice) t m cache' e hg hs
            have hb := handleTTS_synth_failure env appDir cache'
              (req.voice.getD defaultVoice) t m cache' e hst hs
            rw [h1, ha]
            show (synthesize_audio env appDir cache' req).1 =
              Response.json 500 (synthErrorMsg e)
            rw [h2, hb]
          | ok pcm =>
            cases hw : wavEncode m.sampleRate pcm with
            | error e =>
              have ha := handleTTS_wav_failure env appDir cache
                (req.voice.getD defaultVoice) t m cache' pcm e hg hs hw
              have hb := handleTTS_wav_failure env appDir cache'
                (req.voice.getD defaultVoice) t m cache' pcm e hst hs hw
              rw [h1, ha]
              show (synthesize_audio env appDir cache' req).1 =
                Response.json 500 (synthErrorMsg e)
              rw [h2, hb]
            | ok bytes =>
              have ha := handleTTS_ok env appDir cache
                (req.voice.getD defaultVoice) t m cache' pcm bytes hg hs hw
              have hb := handleTTS_ok env appDir cache'
                (req.voice.getD defaultVoice) t m cache' pcm bytes hst hs hw
              rw [h1, ha]
              show (synthesize_audio env appDir cache' req).1 =
                Response.file bytes "audio/wav" true "output.wav"
              rw [h2, hb]

/-- C8: whenever the loader fails for an uncached voice — no
candidate path exists, or loading raises — it returns absent and the
cache is left exactly unchanged, with no entry under that voice, so a
later request starts the probe from scratch. -/
theorem C8_failure_leaves_cache_unchanged (env : Env) (appDir : String)
    (cache : Cache) (voice : String)
    (hmiss : cache.lookup voice = none)
    (hfail : findModelPath env appDir voice = none ∨
      ∃ p e, findModelPath env appDir voice = some p ∧
        env.load p = Except.error e) :
    get_tts_instance env appDir cache voice = (none, cache) ∧
    ((get_tts_instance env appDir cache voice).2).lookup voice = none := by
  have h : get_tts_instance env appDir cache voice = (none, cache) := by
    rcases hfail with hf | ⟨p, e, hf, he⟩
    · exact get_tts_instance_miss_not_found env appDir cache voice hmiss hf
    · exact get_tts_instance_load_raise env appDir cache voice p e hmiss hf he
  exact ⟨h, by rw [h]; exact hmiss⟩

/-- Witness for C8: loading raises on an existing file; the cache
stays empty. -/
theorem C8_witness :
    get_tts_instance corruptEnv "/app" [] "en_US-lessac-medium" = (none, []) ∧
    ((get_tts_instance corruptEnv "/app" [] "en_US-lessac-medium").2).lookup
      "en_US-lessac-medium" = none :=
  C8_failure_leaves_cache_unchanged corruptEnv "/app" [] "en_US-lessac-medium"
    rfl
    (Or.inr ⟨"/app/voices/en_US-lessac-medium.onnx", "onnx parse failure",
      rfl, rfl⟩)

/-- C9: when the voice query parameter is absent the handler uses
exactly the default voice identifier `en_GB-alba-medium` for the
cache lookup and the model load: the run is identical to one with
that voice passed explicitly. -/
theorem C9_absent_voice_uses_default (env : Env) (appDir : String)
    (cache : Cache) (t : Option String) :
    defaultVoice = "en_GB-alba-medium" ∧
    (∀ s : String,
      get_tts_instance env appDir cache
          ((Request.mk (some s) none).voice.getD defaultVoice) =
        get_tts_instance env appDir cache "en_GB-alba-medium") ∧
    synthesize_audio env appDir cache ⟨t, none⟩ =
      synthesize_audio env appDir cache ⟨t, some "en_GB-alba-medium"⟩ := by
  refine ⟨rfl, fun s => rfl, ?_⟩
  cases t with
  | none => rfl
  | some s => rfl

/-- C10: the validator answers 400 exactly for absent or empty text;
whitespace-only text such as a single space is not rejected and goes
on to model loading and synthesis. -/
theorem C10_reject_exactly_absent_or_empty (env : Env) (appDir : String)
    (cache : Cache) (req : Request) :
    ((synthesize_audio env appDir cache req).1.status = 400 ↔
      req.text = none ∨ req.text = some "") ∧
    (∀ v : Option String,
      synthesize_audio env appDir cache ⟨some " ", v⟩ =
        handleTTS env appDir cache (v.getD defaultVoice) " ") := by
  constructor
  · constructor
    · intro h400
      by_cases hn : req.text = none
      · exact Or.inl hn
      · obtain ⟨t, ht⟩ := Option.ne_none_iff_exists'.mp hn
        by_cases he : t = ""
        · subst he
          exact Or.inr ht
        · exfalso
          rw [synthesize_audio_some env appDir cache req t ht he] at h400
          rcases handleTTS_status env appDir cache
            (req.voice.getD defaultVoice) t with h | h
          · rw [h400] at h
            exact absurd h (by decide)
          · rw [h400] at h
            exact absurd h (by decide)
    · rintro (hn | he)
      · rw [synthesize_audio_no_text env appDir cache req hn]
        rfl
      · rw [synthesize_audio_empty_text env appDir cache req he]
        rfl
  · intro v
    exact synthesize_audio_some env appDir cache ⟨some " ", v⟩ " " rfl
      (by decide)

/-- Witness for C10: a single-space text is not rejected (it reaches
the pipeline, here answering 500 since no model exists), while the
400 equivalence holds at that request. -/
theorem C10_witness :
    ((synthesize_audio bareEnv "/app" [] ⟨some " ", none⟩).1.status = 400 ↔
      (some " " : Option String) = none ∨
        (some " " : Option String) = some "") ∧
    synthesize_audio bareEnv "/app" [] ⟨some " ", none⟩ =
      handleTTS bareEnv "/app" [] "en_GB-alba-medium" " " :=
  ⟨(C10_reject_exactly_absent_or_empty bareEnv "/app" []
      ⟨some " ", none⟩).1,
    (C10_reject_exactly_absent_or_empty bareEnv "/app" []
      ⟨some " ", none⟩).2 none⟩

end PiperApp
